import Mathlib

/-!
Shallow embedding of the Regulatory Workflow Engine of src/app.py and
verification of the frozen claims about it.  Python dataclasses become Lean
structures, enum classes become inductive types, `Dict` condition maps with
optional keys become structures of `Option` fields, `datetime` timestamps
become natural numbers (only their presence or absence matters to the
claims), floats become rationals, and the randomized collaborator calls are
parameterized by an explicit environment.  Fallible Python code (raising
exceptions) is embedded via `Except String`.
-/

set_option maxHeartbeats 1000000

namespace ICLM

/-- Embeds the WorkflowStatus enum (src/app.py:17-24).  Note the enum has no
PENDING member; CheckStatus does. -/
inductive WorkflowStatus where
  | not_started
  | in_progress
  | completed
  | failed
  | manual_review_required
  | approved
  | rejected
deriving DecidableEq, Repr

/-- Dynamic attribute lookup on the WorkflowStatus enum class, as Python
performs for an expression such as WorkflowStatus.COMPLETED.  Looking up a
name that is not a member (for instance PENDING, referenced at
src/app.py:623) yields none, which the embedding turns into a raised
AttributeError. -/
def WorkflowStatus.lookupMember : String → Option WorkflowStatus
  | "NOT_STARTED" => some .not_started
  | "IN_PROGRESS" => some .in_progress
  | "COMPLETED" => some .completed
  | "FAILED" => some .failed
  | "MANUAL_REVIEW_REQUIRED" => some .manual_review_required
  | "APPROVED" => some .approved
  | "REJECTED" => some .rejected
  | _ => none

/-- Embeds the CheckStatus enum (src/app.py:26-31). -/
inductive CheckStatus where
  | pending
  | in_progress
  | passed
  | failed
  | manual_review
deriving DecidableEq, Repr

/-- Embeds the EntityType enum (src/app.py:33-39). -/
inductive EntityType where
  | hedge_fund
  | investment_advisor
  | pension_fund
  | insurance_company
  | bank
  | corporate
deriving DecidableEq, Repr

/-- The string value of an EntityType member, as Python exposes via .value. -/
def EntityType.value : EntityType → String
  | .hedge_fund => "hedge_fund"
  | .investment_advisor => "investment_advisor"
  | .pension_fund => "pension_fund"
  | .insurance_company => "insurance_company"
  | .bank => "bank"
  | .corporate => "corporate"

/-- Embeds the EntityType constructor applied to a string, as in
EntityType(client_info["entity_type"]) (src/app.py:436, 950); an unknown
string raises ValueError in Python, embedded as none. -/
def EntityType.ofString : String → Option EntityType
  | "hedge_fund" => some .hedge_fund
  | "investment_advisor" => some .investment_advisor
  | "pension_fund" => some .pension_fund
  | "insurance_company" => some .insurance_company
  | "bank" => some .bank
  | "corporate" => some .corporate
  | _ => none

/-- Embeds the ProductApproval dataclass (src/app.py:41-46). -/
structure ProductApproval where
  product_name : String
  product_type : String
  approved_date : Nat
  risk_level : String
deriving DecidableEq, Repr

/-- Embeds the ClientData dataclass (src/app.py:48-59). -/
structure ClientData where
  client_id : String
  entity_name : String
  entity_type : EntityType
  jurisdiction : String
  aum_usd : ℚ
  business_type : String
  contact_person : String
  email : String
  approved_products : List ProductApproval
  created_at : Nat
deriving DecidableEq, Repr

/-- Embeds the HighLevelCheck dataclass (src/app.py:61-69).  The result_data
dict of named boolean criteria becomes an association list. -/
structure HighLevelCheck where
  check_id : String
  regulation_name : String
  check_description : String
  status : CheckStatus
  result_data : List (String × Bool)
  created_at : Nat
  completed_at : Option Nat := none
deriving DecidableEq, Repr

/-- Embeds the DocumentCheck dataclass (src/app.py:71-83). -/
structure DocumentCheck where
  check_id : String
  regulation_name : String
  document_type : String
  document_id : String
  ai_validation_status : CheckStatus
  manual_review_status : CheckStatus
  ai_confidence : ℚ
  ai_feedback : String
  manual_notes : String
  created_at : Nat
  completed_at : Option Nat := none
deriving DecidableEq, Repr

/-- Embeds the DataQualityCheck dataclass (src/app.py:85-94). -/
structure DataQualityCheck where
  check_id : String
  regulation_name : String
  field_name : String
  status : CheckStatus
  dq_score : ℚ
  issues : List String
  created_at : Nat
  completed_at : Option Nat := none
deriving DecidableEq, Repr

/-- Embeds the DocumentRequirement dataclass (src/app.py:96-100). -/
structure DocumentRequirement where
  document_type : String
  required : Bool
  description : String
deriving DecidableEq, Repr

/-- Embeds the conditions dict of a RegulationRule (src/app.py:102-107).
Each key of the Python dict may be present or absent, so each becomes an
Option field; code guards every category with a key-presence test. -/
structure RuleConditions where
  jurisdiction : Option (List String) := none
  entity_types : Option (List String) := none
  aum_threshold : Option ℚ := none
  products : Option (List String) := none
deriving DecidableEq, Repr

/-- Embeds the RegulationRule dataclass (src/app.py:102-107). -/
structure RegulationRule where
  regulation_name : String
  conditions : RuleConditions
  required_documents : List DocumentRequirement
  description : String
deriving DecidableEq, Repr

/-- Embeds the MiFID II rule (src/app.py:165-179). -/
def ruleMiFID : RegulationRule :=
  { regulation_name := "MiFID II"
    conditions :=
      { jurisdiction := some ["EU", "UK"]
        products := some ["derivatives", "equities", "bonds"]
        entity_types := some ["investment_advisor", "hedge_fund"]
        aum_threshold := some 5000000 }
    required_documents :=
      [ ⟨"risk_disclosure", true, "Risk disclosure statement for MiFID II compliance"⟩,
        ⟨"entity_registration", true, "Entity registration certificate"⟩,
        ⟨"financial_statements", true, "Latest audited financial statements"⟩ ]
    description := "Markets in Financial Instruments Directive II" }

/-- Embeds the AIFMD rule (src/app.py:180-194). -/
def ruleAIFMD : RegulationRule :=
  { regulation_name := "AIFMD"
    conditions :=
      { jurisdiction := some ["EU"]
        products := some ["alternative_investments", "hedge_funds"]
        entity_types := some ["hedge_fund", "investment_advisor"]
        aum_threshold := some 100000000 }
    required_documents :=
      [ ⟨"aifmd_registration", true, "AIFMD registration documentation"⟩,
        ⟨"fund_prospectus", true, "Fund prospectus and offering documents"⟩,
        ⟨"risk_management", true, "Risk management framework documentation"⟩ ]
    description := "Alternative Investment Fund Managers Directive" }

/-- Embeds the EMIR rule (src/app.py:195-209). -/
def ruleEMIR : RegulationRule :=
  { regulation_name := "EMIR"
    conditions :=
      { jurisdiction := some ["EU", "UK"]
        products := some ["derivatives", "swaps"]
        entity_types := some ["hedge_fund", "investment_advisor", "bank"]
        aum_threshold := some 0 }
    required_documents :=
      [ ⟨"emir_registration", true, "EMIR registration and reporting documentation"⟩,
        ⟨"derivative_policy", true, "Derivatives trading policy"⟩,
        ⟨"risk_mitigation", true, "Risk mitigation procedures for OTC derivatives"⟩ ]
    description := "European Market Infrastructure Regulation" }

/-- Embeds the FATCA rule (src/app.py:210-223).  Its jurisdiction set
contains the GLOBAL wildcard. -/
def ruleFATCA : RegulationRule :=
  { regulation_name := "FATCA"
    conditions :=
      { jurisdiction := some ["US", "GLOBAL"]
        entity_types := some ["hedge_fund", "investment_advisor", "pension_fund", "insurance_company"]
        aum_threshold := some 0 }
    required_documents :=
      [ ⟨"fatca_forms", true, "FATCA compliance forms (W-8 series)"⟩,
        ⟨"us_person_identification", true, "US person identification procedures"⟩,
        ⟨"irs_registration", false, "IRS registration documentation"⟩ ]
    description := "Foreign Account Tax Compliance Act" }

/-- Embeds the AML/KYC rule (src/app.py:224-238). -/
def ruleAMLKYC : RegulationRule :=
  { regulation_name := "AML/KYC"
    conditions :=
      { jurisdiction := some ["GLOBAL"]
        entity_types := some ["hedge_fund", "investment_advisor", "bank", "corporate", "pension_fund", "insurance_company"]
        aum_threshold := some 0 }
    required_documents :=
      [ ⟨"aml_policy", true, "Anti-Money Laundering policy and procedures"⟩,
        ⟨"kyc_documentation", true, "Know Your Customer documentation"⟩,
        ⟨"beneficial_ownership", true, "Beneficial ownership disclosure"⟩,
        ⟨"sanctions_screening", true, "Sanctions screening procedures"⟩ ]
    description := "Anti-Money Laundering / Know Your Customer" }

/-- Embeds REGULATION_RULES (src/app.py:164-239), in declaration order. -/
def REGULATION_RULES : List RegulationRule :=
  [ruleMiFID, ruleAIFMD, ruleEMIR, ruleFATCA, ruleAMLKYC]

/-- One entry of the SAMPLE_CLIENTS dict (src/app.py:242-270): the System X
portion of a client record. -/
structure SampleClientInfo where
  entity_name : String
  entity_type : String
  jurisdiction : String
  aum_usd : ℚ
  business_type : String
  contact_person : String
  email : String
deriving DecidableEq, Repr

/-- Embeds SAMPLE_CLIENTS (src/app.py:242-270) as an association list. -/
def SAMPLE_CLIENTS : List (String × SampleClientInfo) :=
  [ ("CLIENT_001",
     { entity_name := "European Alpha Fund", entity_type := "hedge_fund",
       jurisdiction := "EU", aum_usd := 250000000,
       business_type := "Alternative Investment Management",
       contact_person := "Maria Schmidt", email := "maria.schmidt@europealpha.com" }),
    ("CLIENT_002",
     { entity_name := "Global Investment Advisors Ltd", entity_type := "investment_advisor",
       jurisdiction := "UK", aum_usd := 75000000,
       business_type := "Investment Advisory Services",
       contact_person := "James Wilson", email := "j.wilson@globalinvest.co.uk" }),
    ("CLIENT_003",
     { entity_name := "US Pension Fund", entity_type := "pension_fund",
       jurisdiction := "US", aum_usd := 500000000,
       business_type := "Pension Fund Management",
       contact_person := "Sarah Johnson", email := "sarah.j@uspension.org" }) ]

/-- One entry of the SAMPLE_PRODUCTS lists (src/app.py:273-287). -/
structure SampleProductInfo where
  product_name : String
  product_type : String
  risk_level : String
deriving DecidableEq, Repr

/-- Embeds SAMPLE_PRODUCTS (src/app.py:273-287) as an association list. -/
def SAMPLE_PRODUCTS : List (String × List SampleProductInfo) :=
  [ ("CLIENT_001",
     [ ⟨"Equity Derivatives", "derivatives", "high"⟩,
       ⟨"European Equities", "equities", "medium"⟩,
       ⟨"Alternative Investments", "alternative_investments", "high"⟩ ]),
    ("CLIENT_002",
     [ ⟨"Corporate Bonds", "bonds", "low"⟩,
       ⟨"Equity Trading", "equities", "medium"⟩ ]),
    ("CLIENT_003",
     [ ⟨"Government Bonds", "bonds", "low"⟩,
       ⟨"Money Market", "money_market", "low"⟩ ]) ]

/-- Environment of non-deterministic inputs of the engine: the current
clock reading for datetime.now(), the randomized approval date the source
draws for imported products (src/app.py:428), the randomized document
availability of check_document_completeness (src/app.py:496), keyed by
regulation and document type, and the randomized reviewer decision of the
manual_review step (src/app.py:630). -/
structure Env where
  now : Nat
  approved_date : Nat
  avail : String → String → Bool
  review_approved : Bool

/-- Embeds import_client_data (src/app.py:415-444).  Raising ValueError for
an unknown client id becomes an error value carrying str(e). -/
def import_client_data (env : Env) (client_id : String) : Except String ClientData :=
  match (SAMPLE_CLIENTS.find? (fun kv => kv.1 == client_id)) with
  | none => .error ("Client " ++ client_id ++ " not found in System X")
  | some (_, client_info) =>
      let products_info := ((SAMPLE_PRODUCTS.find? (fun kv => kv.1 == client_id)).map Prod.snd).getD []
      let approved_products := products_info.map (fun p =>
        ProductApproval.mk p.product_name p.product_type env.approved_date p.risk_level)
      match EntityType.ofString client_info.entity_type with
      | none => .error (client_info.entity_type ++ " is not a valid EntityType")
      | some et =>
          .ok { client_id := client_id
                entity_name := client_info.entity_name
                entity_type := et
                jurisdiction := client_info.jurisdiction
                aum_usd := client_info.aum_usd
                business_type := client_info.business_type
                contact_person := client_info.contact_person
                email := client_info.email
                approved_products := approved_products
                created_at := env.now }

/-- Embeds check_document_completeness (src/app.py:482-513), reduced to the
field the workflow engine consumes: the overall_complete flag of the result
dict.  none embeds the error dict returned when no rule matches the
regulation name (the caller reads the flag with .get and a False default).
overall_complete is true unless some required document is unavailable. -/
def check_document_completeness (env : Env) (regulation_name : String) : Option Bool :=
  match REGULATION_RULES.find? (fun r => r.regulation_name == regulation_name) with
  | none => none
  | some rule =>
      some (rule.required_documents.foldl
        (fun overall_complete doc_req =>
          if doc_req.required ∧ ¬(env.avail regulation_name doc_req.document_type) then false
          else overall_complete)
        true)

/-- Per-rule applicability test of classify_applicable_regulations
(src/app.py:452-475): the body of the loop, computing is_applicable by
checking each condition category only when its key is present and only
while still applicable. -/
def ruleIsApplicable (client_data : ClientData) (rule : RegulationRule) : Bool :=
  let client_product_types := client_data.approved_products.map (fun p => p.product_type)
  let is1 : Bool :=
    match rule.conditions.jurisdiction with
    | some js =>
        if client_data.jurisdiction ∉ js ∧ "GLOBAL" ∉ js then false else true
    | none => true
  let is2 : Bool :=
    match rule.conditions.entity_types with
    | some es => if is1 then (if client_data.entity_type.value ∉ es then false else is1) else is1
    | none => is1
  let is3 : Bool :=
    match rule.conditions.aum_threshold with
    | some t => if is2 then (if client_data.aum_usd < t then false else is2) else is2
    | none => is2
  let is4 : Bool :=
    match rule.conditions.products with
    | some ps =>
        if is3 then
          (if ps.any (fun product_type => product_type ∈ client_product_types) then is3 else false)
        else is3
    | none => is3
  is4

/-- Embeds classify_applicable_regulations (src/app.py:446-480): fold over
REGULATION_RULES appending the name of each applicable rule. -/
def classify_applicable_regulations (client_data : ClientData) : List String :=
  REGULATION_RULES.foldl
    (fun applicable_regulations rule =>
      if ruleIsApplicable client_data rule then
        applicable_regulations ++ [rule.regulation_name]
      else applicable_regulations)
    []

/-- The five step names of a regulatory workflow (src/app.py:520-556). -/
inductive StepName where
  | client_import
  | regulation_classification
  | document_validation
  | manual_review
  | client_communication
deriving DecidableEq, Repr

/-- The details dict a step records (src/app.py:588, 597, 614, 631, 662),
embedded as one tagged payload per branch. -/
inductive StepDetails where
  | empty
  | clientImport (products_count : Nat)
  | classification (total_regulations_checked : Nat) (applicable_regulations : List String)
  | docValidation (regulations_checked : Nat) (overall_complete : Bool)
  | manualReview (review_decision : String)
  | clientComm (sent_to : String) (regulations_notified : List String)
deriving DecidableEq, Repr

/-- Embeds the WorkflowStep dataclass (src/app.py:109-116). -/
structure WorkflowStep where
  step_name : String
  status : WorkflowStatus
  started_at : Option Nat
  completed_at : Option Nat
  details : StepDetails
  error_message : Option String := none
deriving DecidableEq, Repr

/-- Embeds the ClientCommunication dataclass (src/app.py:118-127). -/
structure ClientCommunication where
  comm_id : String
  client_id : String
  comm_type : String
  subject : String
  content : String
  status : WorkflowStatus
  sent_at : Option Nat
  created_at : Nat
deriving DecidableEq, Repr

/-- The workflow_steps dict (src/app.py:520-556): all five steps are always
present, so the dict becomes a structure with one field per step name. -/
structure WorkflowSteps where
  client_import : WorkflowStep
  regulation_classification : WorkflowStep
  document_validation : WorkflowStep
  manual_review : WorkflowStep
  client_communication : WorkflowStep
deriving DecidableEq, Repr

/-- Dict read workflow.workflow_steps[step_name]. -/
def WorkflowSteps.get (s : WorkflowSteps) : StepName → WorkflowStep
  | .client_import => s.client_import
  | .regulation_classification => s.regulation_classification
  | .document_validation => s.document_validation
  | .manual_review => s.manual_review
  | .client_communication => s.client_communication

/-- Dict write workflow.workflow_steps[step_name] = step. -/
def WorkflowSteps.set (s : WorkflowSteps) : StepName → WorkflowStep → WorkflowSteps
  | .client_import, st => { s with client_import := st }
  | .regulation_classification, st => { s with regulation_classification := st }
  | .document_validation, st => { s with document_validation := st }
  | .manual_review, st => { s with manual_review := st }
  | .client_communication, st => { s with client_communication := st }

/-- Embeds the RegulatoryWorkflow dataclass (src/app.py:129-140), without
the classification_results field, which no modelled code path writes. -/
structure RegulatoryWorkflow where
  workflow_id : String
  client_id : String
  client_data : Option ClientData
  applicable_regulations : List String
  workflow_steps : WorkflowSteps
  communications : List ClientCommunication
  overall_status : WorkflowStatus
  created_at : Nat
  completed_at : Option Nat := none
deriving DecidableEq, Repr

/-- Embeds create_regulatory_workflow (src/app.py:515-571); the fresh uuid
is a parameter. -/
def create_regulatory_workflow (workflow_id : String) (client_id : String) (now : Nat) :
    RegulatoryWorkflow :=
  let fresh : String → WorkflowStep := fun name =>
    { step_name := name, status := .not_started, started_at := none,
      completed_at := none, details := .empty }
  { workflow_id := workflow_id
    client_id := client_id
    client_data := none
    applicable_regulations := []
    workflow_steps :=
      { client_import := fresh "Client Data Import"
        regulation_classification := fresh "Regulation Classification"
        document_validation := fresh "Document Validation"
        manual_review := fresh "Manual Review"
        client_communication := fresh "Client Communication" }
    communications := []
    overall_status := .not_started
    created_at := now }

/-- Outcome of the step-specific branch of the try block of
process_workflow_step: normal fall-through to the completion epilogue, the
early return True of the rejected manual-review path (src/app.py:643), or a
raised exception carrying str(e) together with the mutations already
performed before the raise (Python mutates the records in place). -/
inductive BranchResult where
  | normal (wf : RegulatoryWorkflow)
  | earlyTrue (wf : RegulatoryWorkflow)
  | raised (msg : String) (wf : RegulatoryWorkflow)

/-- The step-specific branch of the try block of process_workflow_step
(src/app.py:584-666), acting on the workflow in which the addressed step
already carries status IN_PROGRESS and a start timestamp. -/
def runStepBranch (env : Env) (wf : RegulatoryWorkflow) (comm_id : String) :
    StepName → BranchResult
  | .client_import =>
      match import_client_data env wf.client_id with
      | .error msg => .raised msg wf
      | .ok cd =>
          let wf1 := { wf with client_data := some cd }
          let step := wf1.workflow_steps.get .client_import
          let step := { step with details := .clientImport cd.approved_products.length }
          .normal { wf1 with workflow_steps := wf1.workflow_steps.set .client_import step }
  | .regulation_classification =>
      match wf.client_data with
      | none => .raised "NoneType object has no attribute approved_products" wf
      | some cd =>
          let regs := classify_applicable_regulations cd
          let wf1 := { wf with applicable_regulations := regs }
          let step := wf1.workflow_steps.get .regulation_classification
          let step := { step with details := .classification REGULATION_RULES.length regs }
          .normal { wf1 with workflow_steps := wf1.workflow_steps.set .regulation_classification step }
  | .document_validation =>
      let overall_complete := wf.applicable_regulations.foldl
        (fun overall_complete regulation =>
          if ¬((check_document_completeness env regulation).getD false) then false
          else overall_complete)
        true
      let step := wf.workflow_steps.get .document_validation
      let step := { step with
        details := .docValidation wf.applicable_regulations.length overall_complete }
      let wf1 := { wf with workflow_steps := wf.workflow_steps.set .document_validation step }
      if ¬overall_complete then
        let step2 := { step with status := .manual_review_required }
        let wf2 := { wf1 with workflow_steps := wf1.workflow_steps.set .document_validation step2 }
        match WorkflowStatus.lookupMember "PENDING" with
        | some st =>
            let mr := wf2.workflow_steps.get .manual_review
            .normal { wf2 with workflow_steps :=
              wf2.workflow_steps.set .manual_review { mr with status := st } }
        | none =>
            .raised "type object WorkflowStatus has no attribute PENDING" wf2
      else .normal wf1
  | .manual_review =>
      let approved := env.review_approved
      let step := wf.workflow_steps.get .manual_review
      let step := { step with
        details := .manualReview (if approved then "approved" else "rejected") }
      if approved then
        let step1 := { step with status := .approved }
        .normal { wf with workflow_steps := wf.workflow_steps.set .manual_review step1 }
      else
        let step1 := { step with status := .rejected }
        let wf1 := { wf with workflow_steps := wf.workflow_steps.set .manual_review step1 }
        .earlyTrue { wf1 with overall_status := .rejected }
  | .client_communication =>
      match wf.client_data with
      | none => .raised "NoneType object has no attribute entity_name" wf
      | some cd =>
          let regulation_list := String.intercalate ", " wf.applicable_regulations
          let communication : ClientCommunication :=
            { comm_id := comm_id
              client_id := wf.client_id
              comm_type := "market_regulation_notification"
              subject := "Regulatory Due Diligence Complete - " ++ cd.entity_name
              content := "Dear " ++ cd.contact_person ++
                ", we have completed the regulatory due diligence for " ++ cd.entity_name ++
                ". Applicable regulations: " ++ regulation_list ++ "."
              status := .completed
              sent_at := some env.now
              created_at := env.now }
          let wf1 := { wf with communications := wf.communications ++ [communication] }
          let step := wf1.workflow_steps.get .client_communication
          let step := { step with details := .clientComm cd.email wf1.applicable_regulations }
          .normal { wf1 with workflow_steps := wf1.workflow_steps.set .client_communication step }

/-- Embeds process_workflow_step (src/app.py:573-679) on a single workflow
(the workflow_db lookup of the enclosing endpoint is handled separately):
mark the step started and in progress, run the branch, and apply the
completion epilogue (src/app.py:668-673) or the except handler
(src/app.py:675-679).  Returns the bool result together with the mutated
workflow. -/
def process_workflow_step (env : Env) (wf : RegulatoryWorkflow) (comm_id : String)
    (step_name : StepName) : Bool × RegulatoryWorkflow :=
  let step := wf.workflow_steps.get step_name
  let step := { step with started_at := some env.now, status := .in_progress }
  let wf1 := { wf with workflow_steps := wf.workflow_steps.set step_name step }
  match runStepBranch env wf1 comm_id step_name with
  | .earlyTrue wf2 => (true, wf2)
  | .normal wf2 =>
      let step := wf2.workflow_steps.get step_name
      let step1 :=
        if step.status ∉ [WorkflowStatus.manual_review_required, WorkflowStatus.rejected] then
          { step with status := .completed }
        else step
      let step1 := { step1 with completed_at := some env.now }
      (true, { wf2 with workflow_steps := wf2.workflow_steps.set step_name step1 })
  | .raised msg wf2 =>
      let step := wf2.workflow_steps.get step_name
      let step1 := { step with
        status := .failed, error_message := some msg, completed_at := some env.now }
      (false, { wf2 with workflow_steps := wf2.workflow_steps.set step_name step1 })

/-- Embeds the RegulatoryClassification dataclass (src/app.py:142-152). -/
structure RegulatoryClassification where
  client_id : String
  classification_id : String
  status : CheckStatus
  high_level_checks : List HighLevelCheck
  document_checks : List DocumentCheck
  dq_checks : List DataQualityCheck
  overall_progress : ℚ
  created_at : Nat
  completed_at : Option Nat := none
deriving DecidableEq, Repr

/-- Environment of non-deterministic inputs of the check processors: fresh
uuids and document ids keyed by regulation name, and the confidence the
randomized document-analysis collaborator draws per regulation
(src/app.py:706). -/
structure CheckEnv where
  now : Nat
  uuid : String → String
  document_id : String → String
  confidence : String → ℚ

/-- The fields of the mock_document_api result dict (src/app.py:685-699)
that process_document_checks consumes. -/
structure DocumentApiResult where
  document_id : String
  document_type : String
  content : String
deriving DecidableEq, Repr

/-- Embeds mock_document_api (src/app.py:685-699); the random document id
comes from the environment. -/
def mock_document_api (env : CheckEnv) (client_id : String) (regulation : String) :
    DocumentApiResult :=
  { document_id := env.document_id regulation
    document_type := "regulatory_compliance_statement"
    content := "Mock OCR extracted content for " ++ regulation ++
      " compliance document. This document certifies that " ++ client_id ++
      " meets the requirements for " ++ regulation ++ " regulation." }

/-- The fields of the mock_llm_document_validation result dict
(src/app.py:723-730) that process_document_checks consumes. -/
structure LlmValidationResult where
  is_compliant : Bool
  confidence_score : ℚ
  recommendation : String
  analysis_summary : String
deriving DecidableEq, Repr

/-- Embeds mock_llm_document_validation (src/app.py:701-730): the drawn
confidence comes from the environment and the verdict is compliant exactly
when the confidence exceeds 0.8. -/
def mock_llm_document_validation (env : CheckEnv) (_content : String) (regulation : String) :
    LlmValidationResult :=
  let confidence := env.confidence regulation
  let is_compliant := confidence > 8 / 10
  { is_compliant := is_compliant
    confidence_score := confidence
    recommendation := if is_compliant then "APPROVED" else "MANUAL_REVIEW_REQUIRED"
    analysis_summary := "Document analysis for " ++ regulation ++ " shows " ++
      (if is_compliant then "strong compliance indicators" else "areas requiring manual review") ++ "." }

/-- Embeds process_document_checks (src/app.py:815-845): fetch each
document, run the analysis, and map the verdict onto the AI and
manual-review statuses and the completion timestamp. -/
def process_document_checks (env : CheckEnv) (client_id : String) (regulations : List String) :
    List DocumentCheck :=
  regulations.map (fun regulation =>
    let doc_data := mock_document_api env client_id regulation
    let llm_result := mock_llm_document_validation env doc_data.content regulation
    let ai_status := if llm_result.is_compliant then CheckStatus.passed else CheckStatus.manual_review
    let manual_status :=
      if ai_status == CheckStatus.manual_review then CheckStatus.pending else CheckStatus.passed
    { check_id := env.uuid regulation
      regulation_name := regulation
      document_type := doc_data.document_type
      document_id := doc_data.document_id
      ai_validation_status := ai_status
      manual_review_status := manual_status
      ai_confidence := llm_result.confidence_score
      ai_feedback := llm_result.analysis_summary
      manual_notes := ""
      created_at := env.now
      completed_at := if ai_status == CheckStatus.passed then some env.now else none })

/-- Aggregation logic of trigger_regulatory_classification
(src/app.py:883-923), parameterized by the three check lists: progress is
the completed-over-total ratio times 100, the overall status is failed when
any high-level or data-quality check failed, else manual_review when any
document check needs it, else passed, and the completion timestamp is set
exactly for passed and failed. -/
def aggregate_classification (client_id : String) (classification_id : String) (now : Nat)
    (high_level_checks : List HighLevelCheck) (document_checks : List DocumentCheck)
    (dq_checks : List DataQualityCheck) : RegulatoryClassification :=
  let total_checks := high_level_checks.length + document_checks.length + dq_checks.length
  let completed_checks :=
    high_level_checks.countP (fun c => c.status == CheckStatus.passed || c.status == CheckStatus.failed) +
    document_checks.countP (fun c =>
      c.ai_validation_status == CheckStatus.passed || c.ai_validation_status == CheckStatus.failed) +
    dq_checks.countP (fun c => c.status == CheckStatus.passed || c.status == CheckStatus.failed)
  let progress : ℚ :=
    if total_checks > 0 then ((completed_checks : ℚ) / (total_checks : ℚ)) * 100 else 0
  let failed_checks :=
    high_level_checks.countP (fun c => c.status == CheckStatus.failed) +
    dq_checks.countP (fun c => c.status == CheckStatus.failed)
  let manual_review_needed :=
    document_checks.countP (fun c => c.ai_validation_status == CheckStatus.manual_review)
  let overall_status :=
    if failed_checks > 0 then CheckStatus.failed
    else if manual_review_needed > 0 then CheckStatus.manual_review
    else CheckStatus.passed
  { client_id := client_id
    classification_id := classification_id
    status := overall_status
    high_level_checks := high_level_checks
    document_checks := document_checks
    dq_checks := dq_checks
    overall_progress := progress
    created_at := now
    completed_at :=
      if overall_status == CheckStatus.passed || overall_status == CheckStatus.failed then some now
      else none }

/-- Embeds trigger_regulatory_classification (src/app.py:869-929).  Its
first statement evaluates random.sample(REGULATIONS, ...), and no binding
named REGULATIONS exists anywhere in src/app.py (the rules list is named
REGULATION_RULES), so the call raises NameError before any check
processing; the aggregation logic of the unreachable remainder is embedded
separately as aggregate_classification. -/
def trigger_regulatory_classification (_client_data : ClientData) :
    Except String RegulatoryClassification :=
  .error "name REGULATIONS is not defined"

/-- Keyword arguments of a call to the ClientData dataclass constructor;
a field left none was not passed at the call site.  Python raises TypeError
when a required argument is missing, since no ClientData field declares a
default (src/app.py:48-59). -/
structure ClientDataCtorArgs where
  client_id : Option String := none
  entity_name : Option String := none
  entity_type : Option EntityType := none
  jurisdiction : Option String := none
  aum_usd : Option ℚ := none
  business_type : Option String := none
  contact_person : Option String := none
  email : Option String := none
  approved_products : Option (List ProductApproval) := none
  created_at : Option Nat := none

/-- The ClientData dataclass constructor applied to keyword arguments:
every field is required, so the call raises TypeError naming the first
missing argument. -/
def ClientData.construct (a : ClientDataCtorArgs) : Except String ClientData :=
  match a.client_id, a.entity_name, a.entity_type, a.jurisdiction, a.aum_usd,
      a.business_type, a.contact_person, a.email, a.approved_products, a.created_at with
  | some ci, some en, some et, some ju, some au, some bt, some cp, some em, some ap, some ca =>
      .ok ⟨ci, en, et, ju, au, bt, cp, em, ap, ca⟩
  | _, _, _, _, _, _, _, _, _, _ =>
      .error "init missing 1 required positional argument: approved_products"

/-- The JSON body of a POST to /api/regulatory/trigger; absent keys are
none. -/
structure TriggerRequest where
  client_id : Option String := none
  entity_name : Option String := none
  entity_type : Option String := none
  jurisdiction : Option String := none
  aum_usd : Option ℚ := none
  business_type : Option String := none
  contact_person : Option String := none
  email : Option String := none

/-- Responses of the trigger endpoint: the 400 missing-fields rejection,
the 500 exception branch carrying str(e), or the success payload. -/
inductive TriggerResponse where
  | badRequest (msg : String)
  | serverError (msg : String)
  | success (classification_id : String) (overall_status : CheckStatus) (progress : ℚ)
deriving DecidableEq, Repr

/-- Dict assignment clients_db[client_id] = client_data on the association
list embedding of the store. -/
def clientsDbSet (db : List (String × ClientData)) (key : String) (value : ClientData) :
    List (String × ClientData) :=
  (key, value) :: db.filter (fun kv => kv.1 ≠ key)

/-- Embeds the trigger_regulatory_process endpoint (src/app.py:935-974):
validate required fields, then inside the try block convert the entity
type, call the ClientData constructor with the keyword arguments the source
passes (approved_products is not among them, src/app.py:947-957), store the
client record, and invoke trigger_regulatory_classification; any raise is
answered by the except branch with the state mutated so far.  Returns the
response together with the resulting client store. -/
def trigger_regulatory_process (now : Nat) (req : TriggerRequest)
    (clients_db : List (String × ClientData)) : TriggerResponse × List (String × ClientData) :=
  if req.client_id.isSome ∧ req.entity_name.isSome ∧ req.entity_type.isSome ∧
      req.jurisdiction.isSome ∧ req.aum_usd.isSome ∧ req.business_type.isSome then
    match EntityType.ofString ((req.entity_type).getD "") with
    | none => (.serverError ((req.entity_type).getD "" ++ " is not a valid EntityType"), clients_db)
    | some et =>
        match ClientData.construct
            { client_id := req.client_id
              entity_name := req.entity_name
              entity_type := some et
              jurisdiction := req.jurisdiction
              aum_usd := req.aum_usd
              business_type := req.business_type
              contact_person := some ((req.contact_person).getD "")
              email := some ((req.email).getD "")
              created_at := some now } with
        | .error msg => (.serverError msg, clients_db)
        | .ok client_data =>
            let db1 := clientsDbSet clients_db client_data.client_id client_data
            match trigger_regulatory_classification client_data with
            | .error msg => (.serverError msg, db1)
            | .ok classification =>
                (.success classification.classification_id classification.status
                  classification.overall_progress, db1)
  else (.badRequest "Missing required fields", clients_db)

/-- The condition categories of a rule read as the claims state them: a
specified jurisdiction set passes when the profile jurisdiction is a member
or the set contains the GLOBAL wildcard, a specified entity-type set must
contain the profile entity classification, a specified AUM threshold must
not exceed the profile AUM, a specified product set must intersect the
profile product-type tags, and every unspecified category passes
vacuously. -/
def ruleConditionsPass (c : ClientData) (r : RegulationRule) : Prop :=
  (match r.conditions.jurisdiction with
   | none => True
   | some js => c.jurisdiction ∈ js ∨ "GLOBAL" ∈ js) ∧
  (match r.conditions.entity_types with
   | none => True
   | some es => c.entity_type.value ∈ es) ∧
  (match r.conditions.aum_threshold with
   | none => True
   | some t => t ≤ c.aum_usd) ∧
  (match r.conditions.products with
   | none => True
   | some ps => ∃ p ∈ c.approved_products, p.product_type ∈ ps)

theorem ruleIsApplicable_iff (c : ClientData) (r : RegulationRule) :
    ruleIsApplicable c r = true ↔ ruleConditionsPass c r := by
  have hprod : ∀ ps : List String,
      (ps.any (fun product_type =>
        product_type ∈ c.approved_products.map (fun p => p.product_type)) = true)
        ↔ ∃ p ∈ c.approved_products, p.product_type ∈ ps := by
    intro ps
    simp only [List.any_eq_true, decide_eq_true_eq, List.mem_map]
    constructor
    · rintro ⟨pt, hpt, q, hq, rfl⟩
      exact ⟨q, hq, hpt⟩
    · rintro ⟨q, hq, hmem⟩
      exact ⟨q.product_type, hmem, q, hq, rfl⟩
  obtain ⟨name, ⟨j, e, a, p⟩, docs, desc⟩ := r
  simp only [ruleIsApplicable, ruleConditionsPass]
  cases j <;> cases e <;> cases a <;> cases p <;>
    (try simp only [hprod]) <;> clear hprod <;> (try split_ifs) <;> simp_all <;> tauto

theorem foldl_append_eq_filter_map {α β : Type} (f : α → β) (p : α → Bool) :
    ∀ (l : List α) (acc : List β),
      l.foldl (fun acc r => if p r then acc ++ [f r] else acc) acc
        = acc ++ (l.filter p).map f := by
  intro l
  induction l with
  | nil => intro acc; simp
  | cons x xs ih =>
      intro acc
      by_cases h : p x <;> simp [List.foldl_cons, h, ih, List.filter_cons]

theorem classify_eq_filter_map (c : ClientData) :
    classify_applicable_regulations c
      = (REGULATION_RULES.filter (fun r => ruleIsApplicable c r)).map
          (fun r => r.regulation_name) := by
  unfold classify_applicable_regulations
  simpa using foldl_append_eq_filter_map (fun r : RegulationRule => r.regulation_name)
    (fun r => ruleIsApplicable c r) REGULATION_RULES []

theorem mem_filter_map_iff {α β : Type} (f : α → β) (p : α → Bool) :
    ∀ (l : List α), (l.map f).Nodup → ∀ r ∈ l, (f r ∈ (l.filter p).map f ↔ p r = true) := by
  intro l
  induction l with
  | nil => intro _ r hr; cases hr
  | cons x xs ih =>
      intro hnd r hr
      rw [List.map_cons, List.nodup_cons] at hnd
      obtain ⟨hx, hxs⟩ := hnd
      rcases List.mem_cons.mp hr with rfl | hmem
      · by_cases hpr : p r
        · simp [List.filter_cons, hpr]
        · simp only [List.filter_cons, if_neg hpr]
          constructor
          · intro habs
            have hsub : (xs.filter p).map f ⊆ xs.map f :=
              ((List.filter_sublist xs).map f).subset
            exact absurd (hsub habs) hx
          · intro habs; exact absurd habs hpr
      · have hne : f r ≠ f x := by
          intro heq
          exact hx (heq ▸ List.mem_map_of_mem f hmem)
        by_cases hpx : p x <;>
          simp [List.filter_cons, hpx, hne, ih hxs r hmem]

/-- C1: For every client profile, the classifier output includes a rule's
regulation name if and only if all condition categories the rule specifies
pass (jurisdiction membership or the GLOBAL wildcard in the rule's set,
entity classification membership, AUM at least the threshold, some profile
product-type tag in the rule's product set), any unspecified category being
vacuously satisfied; the output lists regulation names in Rule Set
declaration order (it is a sublist of the declared name sequence) and
contains each name at most once. -/
theorem classify_membership_order_nodup (c : ClientData) :
    (∀ r ∈ REGULATION_RULES,
        (r.regulation_name ∈ classify_applicable_regulations c ↔ ruleConditionsPass c r)) ∧
    (classify_applicable_regulations c).Nodup ∧
    (classify_applicable_regulations c).Sublist
      (REGULATION_RULES.map (fun r => r.regulation_name)) := by
  have hnd : (REGULATION_RULES.map (fun r => r.regulation_name)).Nodup := by decide
  have hsub : (classify_applicable_regulations c).Sublist
      (REGULATION_RULES.map (fun r => r.regulation_name)) := by
    rw [classify_eq_filter_map]
    exact (List.filter_sublist REGULATION_RULES).map _
  refine ⟨?_, hsub.nodup hnd, hsub⟩
  intro r hr
  rw [classify_eq_filter_map,
    mem_filter_map_iff (fun r => r.regulation_name) (fun r => ruleIsApplicable c r)
      REGULATION_RULES hnd r hr]
  exact ruleIsApplicable_iff c r

/-- The scenario profile of the spec: an EU hedge fund with AUM 250,000,000
holding one approved product of product type derivatives. -/
def euHedgeFundClient : ClientData :=
  { client_id := "CLIENT_001"
    entity_name := "European Alpha Fund"
    entity_type := .hedge_fund
    jurisdiction := "EU"
    aum_usd := 250000000
    business_type := "Alternative Investment Management"
    contact_person := "Maria Schmidt"
    email := "maria.schmidt@europealpha.com"
    approved_products := [⟨"Equity Derivatives", "derivatives", 0, "high"⟩]
    created_at := 0 }

/-- Witness for C1: at the concrete EU hedge-fund profile and the MiFID II
rule, the membership equivalence holds in the forward direction and the
output has no duplicates. -/
theorem classify_membership_order_nodup_witness :
    ruleConditionsPass euHedgeFundClient ruleMiFID ∧
    (classify_applicable_regulations euHedgeFundClient).Nodup :=
  ⟨((classify_membership_order_nodup euHedgeFundClient).1 ruleMiFID (by decide)).mp
      (by decide),
   (classify_membership_order_nodup euHedgeFundClient).2.1⟩

/-- C8 counterexample: on the EU hedge-fund profile (jurisdiction EU, not
US or GLOBAL) the classifier output contains FATCA, because the FATCA
rule's jurisdiction set contains the GLOBAL wildcard, which passes every
profile jurisdiction. -/
theorem classify_eu_hedge_fund_includes_fatca :
    "FATCA" ∈ classify_applicable_regulations euHedgeFundClient := by decide

/-- C8 amended: for the EU hedge fund with AUM 250,000,000 and a
derivatives product, the classifier output is exactly MiFID II, EMIR,
FATCA, AML/KYC: it includes MiFID II, EMIR and AML/KYC as claimed, and
also includes FATCA even though the profile jurisdiction is not US or
GLOBAL, since the FATCA rule's own jurisdiction set contains the GLOBAL
wildcard. -/
theorem classify_eu_hedge_fund_output :
    classify_applicable_regulations euHedgeFundClient
      = ["MiFID II", "EMIR", "FATCA", "AML/KYC"] := by decide

theorem aggregate_status_eq (cid clid : String) (now : Nat)
    (hl : List HighLevelCheck) (dc : List DocumentCheck) (dq : List DataQualityCheck) :
    (aggregate_classification cid clid now hl dc dq).status =
      (if 0 < hl.countP (fun c => c.status == CheckStatus.failed) +
            dq.countP (fun c => c.status == CheckStatus.failed) then CheckStatus.failed
       else if 0 < dc.countP (fun c => c.ai_validation_status == CheckStatus.manual_review)
            then CheckStatus.manual_review
       else CheckStatus.passed) := rfl

/-- C2: For every triple of check lists aggregated into a
RegulatoryClassification, if at least one high-level check or data-quality
check has status failed the overall status is failed regardless of the
document checks; otherwise, if at least one document check needs manual
review, the overall status is manual review; otherwise the overall status
is passed. -/
theorem aggregate_status_precedence (cid clid : String) (now : Nat)
    (hl : List HighLevelCheck) (dc : List DocumentCheck) (dq : List DataQualityCheck) :
    (((∃ c ∈ hl, c.status = CheckStatus.failed) ∨ (∃ c ∈ dq, c.status = CheckStatus.failed)) →
        (aggregate_classification cid clid now hl dc dq).status = CheckStatus.failed) ∧
    (¬((∃ c ∈ hl, c.status = CheckStatus.failed) ∨ (∃ c ∈ dq, c.status = CheckStatus.failed)) →
      (∃ c ∈ dc, c.ai_validation_status = CheckStatus.manual_review) →
        (aggregate_classification cid clid now hl dc dq).status = CheckStatus.manual_review) ∧
    (¬((∃ c ∈ hl, c.status = CheckStatus.failed) ∨ (∃ c ∈ dq, c.status = CheckStatus.failed)) →
      ¬(∃ c ∈ dc, c.ai_validation_status = CheckStatus.manual_review) →
        (aggregate_classification cid clid now hl dc dq).status = CheckStatus.passed) := by
  refine ⟨?_, ?_, ?_⟩
  · intro h
    rw [aggregate_status_eq]
    have hpos : 0 < hl.countP (fun c => c.status == CheckStatus.failed) +
        dq.countP (fun c => c.status == CheckStatus.failed) := by
      rcases h with ⟨c, hc, hcs⟩ | ⟨c, hc, hcs⟩
      · exact Nat.lt_of_lt_of_le (List.countP_pos_iff.mpr ⟨c, hc, by simp [hcs]⟩)
          (Nat.le_add_right _ _)
      · exact Nat.lt_of_lt_of_le (List.countP_pos_iff.mpr ⟨c, hc, by simp [hcs]⟩)
          (Nat.le_add_left _ _)
    rw [if_pos hpos]
  · intro hno hmr
    rw [aggregate_status_eq]
    push_neg at hno
    obtain ⟨h1, h2⟩ := hno
    have hz1 : hl.countP (fun c => c.status == CheckStatus.failed) = 0 :=
      List.countP_eq_zero.mpr (fun c hc => by simpa using h1 c hc)
    have hz2 : dq.countP (fun c => c.status == CheckStatus.failed) = 0 :=
      List.countP_eq_zero.mpr (fun c hc => by simpa using h2 c hc)
    obtain ⟨c, hc, hcs⟩ := hmr
    have hpos : 0 < dc.countP (fun c => c.ai_validation_status == CheckStatus.manual_review) :=
      List.countP_pos_iff.mpr ⟨c, hc, by simp [hcs]⟩
    rw [if_neg (by omega), if_pos hpos]
  · intro hno hnomr
    rw [aggregate_status_eq]
    push_neg at hno
    obtain ⟨h1, h2⟩ := hno
    have hz1 : hl.countP (fun c => c.status == CheckStatus.failed) = 0 :=
      List.countP_eq_zero.mpr (fun c hc => by simpa using h1 c hc)
    have hz2 : dq.countP (fun c => c.status == CheckStatus.failed) = 0 :=
      List.countP_eq_zero.mpr (fun c hc => by simpa using h2 c hc)
    have hz3 : dc.countP (fun c => c.ai_validation_status == CheckStatus.manual_review) = 0 := by
      refine List.countP_eq_zero.mpr (fun c hc => ?_)
      simp only [beq_iff_eq]
      intro habs
      exact hnomr ⟨c, hc, by simpa using habs⟩
    rw [if_neg (by omega), if_neg (by omega)]

/-- A passed high-level check, used as a concrete aggregation input. -/
def samplePassedHighLevelCheck : HighLevelCheck :=
  { check_id := "HLC-1", regulation_name := "MiFID II",
    check_description := "High-level eligibility check for MiFID II",
    status := .passed, result_data := [], created_at := 0, completed_at := some 0 }

/-- A failed high-level check, used as a concrete aggregation input. -/
def sampleFailedHighLevelCheck : HighLevelCheck :=
  { check_id := "HLC-2", regulation_name := "MiFID II",
    check_description := "High-level eligibility check for MiFID II",
    status := .failed, result_data := [], created_at := 0, completed_at := some 0 }

/-- A document check awaiting manual review, used as a concrete aggregation
input. -/
def sampleManualReviewDocumentCheck : DocumentCheck :=
  { check_id := "DOC-1", regulation_name := "MiFID II",
    document_type := "regulatory_compliance_statement", document_id := "DOC_X",
    ai_validation_status := .manual_review, manual_review_status := .pending,
    ai_confidence := 3 / 4, ai_feedback := "", manual_notes := "",
    created_at := 0, completed_at := none }

/-- Witness for C2: with one failed high-level check and one document check
needing manual review, the aggregated status is failed, not manual
review. -/
theorem aggregate_status_precedence_witness :
    (aggregate_classification "CLIENT_X" "CLS-1" 0 [sampleFailedHighLevelCheck]
      [sampleManualReviewDocumentCheck] []).status = CheckStatus.failed :=
  (aggregate_status_precedence "CLIENT_X" "CLS-1" 0 [sampleFailedHighLevelCheck]
      [sampleManualReviewDocumentCheck] []).1
    (Or.inl ⟨sampleFailedHighLevelCheck, by decide, by decide⟩)

/-- C3 counterexample: on a single terminal (passed) high-level check and
no other checks, the aggregated overall_progress is 100, not the fraction 1
the claim requires (the source multiplies the completed-over-total ratio by
100), so overall_progress is not the claimed ratio and does not lie in
the interval from 0 to 1. -/
theorem aggregate_progress_is_percent_counterexample :
    (aggregate_classification "CLIENT_X" "CLS-1" 0 [samplePassedHighLevelCheck] [] []).overall_progress
        = 100 ∧
    (aggregate_classification "CLIENT_X" "CLS-1" 0 [samplePassedHighLevelCheck] [] []).overall_progress
        ≠ 1 ∧
    ¬((aggregate_classification "CLIENT_X" "CLS-1" 0 [samplePassedHighLevelCheck] [] []).overall_progress
        ≤ 1) := by
  refine ⟨?_, ?_, ?_⟩ <;>
    norm_num [aggregate_classification, samplePassedHighLevelCheck]

/-- C3 amended: for every aggregated RegulatoryClassification,
overall_progress equals the number of terminal checks over the total check
count multiplied by 100 (0 when there are no checks), lies in the interval
from 0 to 100, equals 100 exactly when there is at least one check and
every check is terminal, and the completion timestamp is set exactly when
the overall status is terminal (passed or failed). -/
theorem aggregate_progress_props (cid clid : String) (now : Nat)
    (hl : List HighLevelCheck) (dc : List DocumentCheck) (dq : List DataQualityCheck) :
    (aggregate_classification cid clid now hl dc dq).overall_progress =
      (if 0 < hl.length + dc.length + dq.length then
        (((hl.countP (fun c => c.status == CheckStatus.passed || c.status == CheckStatus.failed) +
           dc.countP (fun c => c.ai_validation_status == CheckStatus.passed ||
             c.ai_validation_status == CheckStatus.failed) +
           dq.countP (fun c => c.status == CheckStatus.passed || c.status == CheckStatus.failed) : Nat) : ℚ) /
          ((hl.length + dc.length + dq.length : Nat) : ℚ)) * 100
       else 0) ∧
    0 ≤ (aggregate_classification cid clid now hl dc dq).overall_progress ∧
    (aggregate_classification cid clid now hl dc dq).overall_progress ≤ 100 ∧
    ((aggregate_classification cid clid now hl dc dq).overall_progress = 100 ↔
      (0 < hl.length + dc.length + dq.length ∧
        hl.countP (fun c => c.status == CheckStatus.passed || c.status == CheckStatus.failed) +
        dc.countP (fun c => c.ai_validation_status == CheckStatus.passed ||
          c.ai_validation_status == CheckStatus.failed) +
        dq.countP (fun c => c.status == CheckStatus.passed || c.status == CheckStatus.failed) =
          hl.length + dc.length + dq.length)) ∧
    ((aggregate_classification cid clid now hl dc dq).completed_at.isSome ↔
      ((aggregate_classification cid clid now hl dc dq).status = CheckStatus.passed ∨
       (aggregate_classification cid clid now hl dc dq).status = CheckStatus.failed)) := by
  have heq : (aggregate_classification cid clid now hl dc dq).overall_progress =
      (if 0 < hl.length + dc.length + dq.length then
        (((hl.countP (fun c => c.status == CheckStatus.passed || c.status == CheckStatus.failed) +
           dc.countP (fun c => c.ai_validation_status == CheckStatus.passed ||
             c.ai_validation_status == CheckStatus.failed) +
           dq.countP (fun c => c.status == CheckStatus.passed || c.status == CheckStatus.failed) : Nat) : ℚ) /
          ((hl.length + dc.length + dq.length : Nat) : ℚ)) * 100
       else 0) := rfl
  set completed := hl.countP (fun c => c.status == CheckStatus.passed || c.status == CheckStatus.failed) +
      dc.countP (fun c => c.ai_validation_status == CheckStatus.passed ||
        c.ai_validation_status == CheckStatus.failed) +
      dq.countP (fun c => c.status == CheckStatus.passed || c.status == CheckStatus.failed) with hcdef
  set total := hl.length + dc.length + dq.length with htdef
  have hle : completed ≤ total := by
    rw [hcdef, htdef]
    have a1 := List.countP_le_length
      (fun c : HighLevelCheck => c.status == CheckStatus.passed || c.status == CheckStatus.failed)
      (l := hl)
    have a2 := List.countP_le_length
      (fun c : DocumentCheck => c.ai_validation_status == CheckStatus.passed ||
        c.ai_validation_status == CheckStatus.failed) (l := dc)
    have a3 := List.countP_le_length
      (fun c : DataQualityCheck => c.status == CheckStatus.passed || c.status == CheckStatus.failed)
      (l := dq)
    omega
  refine ⟨heq, ?_, ?_, ?_, ?_⟩
  · rw [heq]
    split_ifs with ht
    · positivity
    · exact le_refl 0
  · rw [heq]
    split_ifs with ht
    · have htQ : (0 : ℚ) < (total : Nat) := by exact_mod_cast ht
      have h1 : ((completed : Nat) : ℚ) / ((total : Nat) : ℚ) ≤ 1 := by
        rw [div_le_one htQ]
        exact_mod_cast hle
      have h2 := mul_le_mul_of_nonneg_right h1 (by norm_num : (0:ℚ) ≤ 100)
      simpa using h2
    · norm_num
  · rw [heq]
    split_ifs with ht
    · have htQ : ((total : Nat) : ℚ) ≠ 0 := by
        have : (0 : ℚ) < (total : Nat) := by exact_mod_cast ht
        exact ne_of_gt this
      constructor
      · intro h
        refine ⟨ht, ?_⟩
        have hQ : ((completed : Nat) : ℚ) = ((total : Nat) : ℚ) := by
          field_simp at h
          linarith
        exact_mod_cast hQ
      · rintro ⟨-, hct⟩
        rw [hct]
        field_simp
    · constructor
      · intro h; norm_num at h
      · rintro ⟨habs, -⟩; exact absurd habs ht
  · have hca : (aggregate_classification cid clid now hl dc dq).completed_at =
        (if ((aggregate_classification cid clid now hl dc dq).status == CheckStatus.passed ||
             (aggregate_classification cid clid now hl dc dq).status == CheckStatus.failed)
         then some now else none) := rfl
    rw [hca]
    rcases h : ((aggregate_classification cid clid now hl dc dq).status == CheckStatus.passed ||
        (aggregate_classification cid clid now hl dc dq).status == CheckStatus.failed) with _ | _
    · have h2 : ¬((aggregate_classification cid clid now hl dc dq).status = CheckStatus.passed ∨
          (aggregate_classification cid clid now hl dc dq).status = CheckStatus.failed) := by
        intro habs
        rcases habs with hh | hh <;> simp [hh] at h
      simp [h2]
    · simp only [Bool.or_eq_true, beq_iff_eq] at h
      simp [h]

/-- An environment in which the document-completeness collaborator reports
every document unavailable. -/
def envDocsMissing : Env :=
  { now := 5, approved_date := 1, avail := fun _ _ => false, review_approved := true }

/-- An environment in which the document-completeness collaborator reports
every document available. -/
def envDocsAvailable : Env :=
  { now := 5, approved_date := 1, avail := fun _ _ => true, review_approved := true }

/-- An environment in which the manual reviewer rejects. -/
def envReject : Env :=
  { now := 7, approved_date := 1, avail := fun _ _ => true, review_approved := false }

/-- A workflow whose applicable-regulations list holds MiFID II, as after a
classification step. -/
def wfDocMissing : RegulatoryWorkflow :=
  { create_regulatory_workflow "WF-1" "CLIENT_001" 0 with
      applicable_regulations := ["MiFID II"] }

/-- C4: evaluation at the failing input.  When a required document is
missing, the source sets the step to MANUAL_REVIEW_REQUIRED and then
evaluates WorkflowStatus.PENDING (src/app.py:623), a member the enum does
not have; the AttributeError is caught by the except handler, so the step
actually terminates failed with the AttributeError text and the
manual_review step stays not-started, contradicting the claimed
needs-manual-review outcome; when no required document is missing the step
terminates completed as claimed. -/
theorem document_validation_pending_attribute_bug :
    ((process_workflow_step envDocsMissing wfDocMissing "COMM-1" .document_validation).1 = false ∧
     (process_workflow_step envDocsMissing wfDocMissing "COMM-1"
        .document_validation).2.workflow_steps.document_validation.status = WorkflowStatus.failed ∧
     (process_workflow_step envDocsMissing wfDocMissing "COMM-1"
        .document_validation).2.workflow_steps.document_validation.error_message =
          some "type object WorkflowStatus has no attribute PENDING" ∧
     (process_workflow_step envDocsMissing wfDocMissing "COMM-1"
        .document_validation).2.workflow_steps.manual_review.status = WorkflowStatus.not_started) ∧
    ((process_workflow_step envDocsAvailable wfDocMissing "COMM-1" .document_validation).1 = true ∧
     (process_workflow_step envDocsAvailable wfDocMissing "COMM-1"
        .document_validation).2.workflow_steps.document_validation.status =
          WorkflowStatus.completed) := by
  decide

/-- C6 counterexample: on a freshly created workflow, in which
regulation_classification has not completed and the applicable-regulations
list is empty, invoking document_validation is not rejected: it returns
success, the step mutates to completed, and the workflow record changes,
contradicting the claimed precondition failure before any state
mutation. -/
theorem document_validation_runs_without_precondition :
    (process_workflow_step envDocsAvailable (create_regulatory_workflow "WF-3" "CLIENT_001" 0)
      "COMM-1" .document_validation).1 = true ∧
    (process_workflow_step envDocsAvailable (create_regulatory_workflow "WF-3" "CLIENT_001" 0)
      "COMM-1" .document_validation).2.workflow_steps.document_validation.status =
        WorkflowStatus.completed ∧
    (process_workflow_step envDocsAvailable (create_regulatory_workflow "WF-3" "CLIENT_001" 0)
      "COMM-1" .document_validation).2 ≠ create_regulatory_workflow "WF-3" "CLIENT_001" 0 := by
  decide

/-- C6 amended: the engine enforces no precondition on document_validation:
for every workflow whose applicable-regulations list is empty (the state
before regulation_classification has completed), invoking the step
executes and mutates state — it returns success and the step ends
completed, stamped with start and completion timestamps and details
recording zero regulations checked. -/
theorem document_validation_no_precondition_check (env : Env) (wf : RegulatoryWorkflow)
    (comm_id : String) (hregs : wf.applicable_regulations = []) :
    (process_workflow_step env wf comm_id .document_validation).1 = true ∧
    (process_workflow_step env wf comm_id
      .document_validation).2.workflow_steps.document_validation.status = WorkflowStatus.completed ∧
    (process_workflow_step env wf comm_id
      .document_validation).2.workflow_steps.document_validation.started_at = some env.now ∧
    (process_workflow_step env wf comm_id
      .document_validation).2.workflow_steps.document_validation.completed_at = some env.now ∧
    (process_workflow_step env wf comm_id
      .document_validation).2.workflow_steps.document_validation.details =
        StepDetails.docValidation 0 true := by
  simp [process_workflow_step, runStepBranch, WorkflowSteps.get, WorkflowSteps.set, hregs]

/-- Witness for C6: the amended behaviour evaluated on a freshly created
workflow. -/
theorem document_validation_no_precondition_witness :
    (process_workflow_step envDocsAvailable (create_regulatory_workflow "WF-3" "CLIENT_001" 0)
      "COMM-1" .document_validation).1 = true ∧
    (process_workflow_step envDocsAvailable (create_regulatory_workflow "WF-3" "CLIENT_001" 0)
      "COMM-1" .document_validation).2.workflow_steps.document_validation.status =
        WorkflowStatus.completed ∧
    (process_workflow_step envDocsAvailable (create_regulatory_workflow "WF-3" "CLIENT_001" 0)
      "COMM-1" .document_validation).2.workflow_steps.document_validation.started_at =
        some envDocsAvailable.now ∧
    (process_workflow_step envDocsAvailable (create_regulatory_workflow "WF-3" "CLIENT_001" 0)
      "COMM-1" .document_validation).2.workflow_steps.document_validation.completed_at =
        some envDocsAvailable.now ∧
    (process_workflow_step envDocsAvailable (create_regulatory_workflow "WF-3" "CLIENT_001" 0)
      "COMM-1" .document_validation).2.workflow_steps.document_validation.details =
        StepDetails.docValidation 0 true :=
  document_validation_no_precondition_check envDocsAvailable
    (create_regulatory_workflow "WF-3" "CLIENT_001" 0) "COMM-1" rfl

/-- C7: for every workflow created for a client id unknown to the Client
Registry (SAMPLE_CLIENTS), processing client_import returns the failure
signal, terminates the step failed with an error message naming the
unknown client id and a completion timestamp, and leaves the workflow
overall status at not-started. -/
theorem client_import_unknown_id (env : Env) (wfid cid : String) (now : Nat) (comm_id : String)
    (h : SAMPLE_CLIENTS.find? (fun kv => kv.1 == cid) = none) :
    (process_workflow_step env (create_regulatory_workflow wfid cid now) comm_id .client_import).1
        = false ∧
    (process_workflow_step env (create_regulatory_workflow wfid cid now) comm_id
      .client_import).2.workflow_steps.client_import.status = WorkflowStatus.failed ∧
    (process_workflow_step env (create_regulatory_workflow wfid cid now) comm_id
      .client_import).2.workflow_steps.client_import.error_message =
        some ("Client " ++ cid ++ " not found in System X") ∧
    (process_workflow_step env (create_regulatory_workflow wfid cid now) comm_id
      .client_import).2.workflow_steps.client_import.completed_at = some env.now ∧
    (process_workflow_step env (create_regulatory_workflow wfid cid now) comm_id
      .client_import).2.overall_status = WorkflowStatus.not_started := by
  simp [process_workflow_step, runStepBranch, import_client_data, WorkflowSteps.get,
    WorkflowSteps.set, create_regulatory_workflow, h]

/-- Witness for C7: the unknown id CLIENT_999. -/
theorem client_import_unknown_id_witness :
    (process_workflow_step envDocsAvailable (create_regulatory_workflow "WF-4" "CLIENT_999" 2)
      "COMM-1" .client_import).1 = false ∧
    (process_workflow_step envDocsAvailable (create_regulatory_workflow "WF-4" "CLIENT_999" 2)
      "COMM-1" .client_import).2.workflow_steps.client_import.status = WorkflowStatus.failed ∧
    (process_workflow_step envDocsAvailable (create_regulatory_workflow "WF-4" "CLIENT_999" 2)
      "COMM-1" .client_import).2.workflow_steps.client_import.error_message =
        some ("Client " ++ "CLIENT_999" ++ " not found in System X") ∧
    (process_workflow_step envDocsAvailable (create_regulatory_workflow "WF-4" "CLIENT_999" 2)
      "COMM-1" .client_import).2.workflow_steps.client_import.completed_at =
        some envDocsAvailable.now ∧
    (process_workflow_step envDocsAvailable (create_regulatory_workflow "WF-4" "CLIENT_999" 2)
      "COMM-1" .client_import).2.overall_status = WorkflowStatus.not_started :=
  client_import_unknown_id envDocsAvailable "WF-4" "CLIENT_999" 2 "COMM-1" (by decide)

/-- A workflow holding an imported client profile and a classified
applicable-regulations list, ready for its later steps. -/
def wfWithClient : RegulatoryWorkflow :=
  { create_regulatory_workflow "WF-2" "CLIENT_001" 0 with
      client_data := some euHedgeFundClient
      applicable_regulations := ["MiFID II", "EMIR", "FATCA", "AML/KYC"] }

/-- C5 counterexample: after a rejected manual review, the workflow overall
status is rejected, yet a subsequent client_communication step is not
rejected with any error: it executes and terminates completed,
contradicting the claimed TerminalStateError behaviour. -/
theorem rejected_workflow_allows_next_step :
    (process_workflow_step envReject wfWithClient "COMM-1" .manual_review).2.overall_status
        = WorkflowStatus.rejected ∧
    (process_workflow_step envReject
        (process_workflow_step envReject wfWithClient "COMM-1" .manual_review).2
        "COMM-2" .client_communication).1 = true ∧
    (process_workflow_step envReject
        (process_workflow_step envReject wfWithClient "COMM-1" .manual_review).2
        "COMM-2" .client_communication).2.workflow_steps.client_communication.status
        = WorkflowStatus.completed := by decide

/-- C5 amended: a rejected manual-review decision sets both the step status
and the workflow overall status to rejected, but the engine does not make
the workflow terminal: a subsequent client_communication step on the
rejected workflow (with a profile present) still executes, returns success
and terminates completed — no terminal-state guard exists in
process_workflow_step. -/
theorem manual_review_rejected_not_enforced_terminal (env env2 : Env) (wf : RegulatoryWorkflow)
    (cd : ClientData) (c1 c2 : String)
    (henv : env.review_approved = false) (hcd : wf.client_data = some cd) :
    (process_workflow_step env wf c1 .manual_review).2.workflow_steps.manual_review.status
        = WorkflowStatus.rejected ∧
    (process_workflow_step env wf c1 .manual_review).2.overall_status = WorkflowStatus.rejected ∧
    (process_workflow_step env2 (process_workflow_step env wf c1 .manual_review).2 c2
      .client_communication).1 = true ∧
    (process_workflow_step env2 (process_workflow_step env wf c1 .manual_review).2 c2
      .client_communication).2.workflow_steps.client_communication.status =
        WorkflowStatus.completed := by
  simp [process_workflow_step, runStepBranch, WorkflowSteps.get, WorkflowSteps.set, henv, hcd]

/-- Witness for C5: the amended behaviour evaluated on the populated
workflow with a rejecting reviewer. -/
theorem manual_review_rejected_witness :
    (process_workflow_step envReject wfWithClient "COMM-1"
      .manual_review).2.workflow_steps.manual_review.status = WorkflowStatus.rejected ∧
    (process_workflow_step envReject wfWithClient "COMM-1" .manual_review).2.overall_status
        = WorkflowStatus.rejected ∧
    (process_workflow_step envReject (process_workflow_step envReject wfWithClient "COMM-1"
      .manual_review).2 "COMM-2" .client_communication).1 = true ∧
    (process_workflow_step envReject (process_workflow_step envReject wfWithClient "COMM-1"
      .manual_review).2 "COMM-2" .client_communication).2.workflow_steps.client_communication.status
        = WorkflowStatus.completed :=
  manual_review_rejected_not_enforced_terminal envReject envReject wfWithClient euHedgeFundClient
    "COMM-1" "COMM-2" rfl rfl

/-- C9: for every document check produced by the document validator, a
compliant analysis verdict yields AI status passed and manual-review status
passed, a non-compliant verdict yields AI status needing manual review,
manual-review status pending and no completion timestamp, and the
completion timestamp is set exactly when the AI status is passed. -/
theorem document_check_status_mapping (env : CheckEnv) (client_id : String)
    (regulations : List String) :
    ∀ chk ∈ process_document_checks env client_id regulations,
      ((mock_llm_document_validation env
          (mock_document_api env client_id chk.regulation_name).content
          chk.regulation_name).is_compliant = true →
        chk.ai_validation_status = CheckStatus.passed ∧
        chk.manual_review_status = CheckStatus.passed) ∧
      ((mock_llm_document_validation env
          (mock_document_api env client_id chk.regulation_name).content
          chk.regulation_name).is_compliant = false →
        chk.ai_validation_status = CheckStatus.manual_review ∧
        chk.manual_review_status = CheckStatus.pending ∧
        chk.completed_at = none) ∧
      (chk.completed_at.isSome ↔ chk.ai_validation_status = CheckStatus.passed) := by
  intro chk hchk
  rw [process_document_checks, List.mem_map] at hchk
  obtain ⟨reg, hreg, rfl⟩ := hchk
  by_cases hc : env.confidence reg > 8 / 10 <;>
    simp [mock_llm_document_validation, mock_document_api, hc]

/-- A check-processing environment whose analysis collaborator draws
confidence 0.9: a compliant verdict. -/
def checkEnvCompliant : CheckEnv :=
  { now := 3, uuid := fun r => "CHK_" ++ r, document_id := fun r => "DOC_" ++ r,
    confidence := fun _ => 9 / 10 }

/-- The document check the validator produces for MiFID II under
checkEnvCompliant. -/
def sampleCompliantDocumentCheck : DocumentCheck :=
  { check_id := "CHK_MiFID II"
    regulation_name := "MiFID II"
    document_type := "regulatory_compliance_statement"
    document_id := "DOC_MiFID II"
    ai_validation_status := .passed
    manual_review_status := .passed
    ai_confidence := 9 / 10
    ai_feedback := "Document analysis for MiFID II shows strong compliance indicators."
    manual_notes := ""
    created_at := 3
    completed_at := some 3 }

theorem sample_compliant_mem :
    sampleCompliantDocumentCheck ∈
      process_document_checks checkEnvCompliant "CLIENT_001" ["MiFID II"] := by
  norm_num [process_document_checks, mock_document_api, mock_llm_document_validation,
    checkEnvCompliant, sampleCompliantDocumentCheck]
  decide

/-- Witness for C9: the mapping evaluated at the concrete compliant check. -/
theorem document_check_status_mapping_witness :
    (sampleCompliantDocumentCheck.completed_at.isSome ↔
      sampleCompliantDocumentCheck.ai_validation_status = CheckStatus.passed) :=
  ((document_check_status_mapping checkEnvCompliant "CLIENT_001" ["MiFID II"])
    sampleCompliantDocumentCheck sample_compliant_mem).2.2

/-- C10 amended: for every valid trigger request (all required fields
present, entity type recognized), the endpoint takes the exception branch
and returns an error response, because the ClientData construction omits
the required approved_products argument and raises before the store write;
the client store is therefore left unchanged (no state mutation on the
error path), and trigger_regulatory_classification itself fails on the
undefined name REGULATIONS before any check processing. -/
theorem trigger_endpoint_error_no_mutation (now : Nat) (req : TriggerRequest)
    (db : List (String × ClientData)) (ci en ets ju bt : String) (au : ℚ) (et : EntityType)
    (hci : req.client_id = some ci) (hen : req.entity_name = some en)
    (hets : req.entity_type = some ets) (hju : req.jurisdiction = some ju)
    (hau : req.aum_usd = some au) (hbt : req.business_type = some bt)
    (het : EntityType.ofString ets = some et) :
    (trigger_regulatory_process now req db).1 =
      TriggerResponse.serverError "init missing 1 required positional argument: approved_products" ∧
    (trigger_regulatory_process now req db).2 = db ∧
    (∀ cd : ClientData, trigger_regulatory_classification cd =
      Except.error "name REGULATIONS is not defined") := by
  refine ⟨?_, ?_, fun cd => rfl⟩ <;>
    simp [trigger_regulatory_process, hci, hen, hets, hju, hau, hbt, het, ClientData.construct]

/-- A concrete valid trigger request. -/
def sampleTriggerRequest : TriggerRequest :=
  { client_id := some "CLIENT_010", entity_name := some "Test Fund",
    entity_type := some "hedge_fund", jurisdiction := some "EU",
    aum_usd := some 1000000, business_type := some "Investment Management",
    contact_person := some "Ana Ruiz", email := some "ana@testfund.eu" }

/-- C10 counterexample: at a concrete valid request and an empty client
store, the endpoint answers with the error response while the client store
stays empty — the client record is not stored before the failure,
contradicting the claim that state is mutated on the error path. -/
theorem trigger_endpoint_store_not_mutated :
    (trigger_regulatory_process 0 sampleTriggerRequest []).2 = [] ∧
    (trigger_regulatory_process 0 sampleTriggerRequest []).1 =
      TriggerResponse.serverError "init missing 1 required positional argument: approved_products" := by
  decide

/-- Witness for C10: the amended behaviour evaluated at the concrete valid
request. -/
theorem trigger_endpoint_error_witness :
    (trigger_regulatory_process 0 sampleTriggerRequest []).1 =
      TriggerResponse.serverError "init missing 1 required positional argument: approved_products" ∧
    (trigger_regulatory_process 0 sampleTriggerRequest []).2 = ([] : List (String × ClientData)) ∧
    trigger_regulatory_classification euHedgeFundClient =
      Except.error "name REGULATIONS is not defined" :=
  ⟨(trigger_endpoint_error_no_mutation 0 sampleTriggerRequest [] "CLIENT_010" "Test Fund"
      "hedge_fund" "EU" "Investment Management" 1000000 EntityType.hedge_fund
      rfl rfl rfl rfl rfl rfl rfl).1,
   (trigger_endpoint_error_no_mutation 0 sampleTriggerRequest [] "CLIENT_010" "Test Fund"
      "hedge_fund" "EU" "Investment Management" 1000000 EntityType.hedge_fund
      rfl rfl rfl rfl rfl rfl rfl).2.1,
   (trigger_endpoint_error_no_mutation 0 sampleTriggerRequest [] "CLIENT_010" "Test Fund"
      "hedge_fund" "EU" "Investment Management" 1000000 EntityType.hedge_fund
      rfl rfl rfl rfl rfl rfl rfl).2.2 euHedgeFundClient⟩

end ICLM
